import Mathlib

/-!
Verification development for the MDtoDOCX repository
(markdown → word-processor document converter).

The definitions below are shallow embeddings of the JavaScript sources:
  * src/services/geminiService.js  — AI wrappers, retry/backoff, fallback
    diagram analyzer;
  * src/parser/markdownParser.js   — the ASCII-diagram detector;
  * src/converter/docxConverter.js — the document renderer (AI-element path
    and local token path).

Network effects are embedded explicitly: the generative-AI backend is an
oracle parameter mapping the attempt number to either an error or a parsed
reply, and every wrapper additionally returns the number of backend
invocations it performed.  JavaScript strings are modelled as Lean strings
(lists of characters); styling option objects are modelled as structures
whose optional keys are `Option` fields.
-/

/-- One JS error value as inspected by the retry logic: an optional numeric
status code (`error?.status || error?.response?.status`, collapsed into one
field) and the message text. -/
structure Err where
  status : Option Nat := none
  message : String := ""
deriving DecidableEq, Repr

/-- JS `String.prototype.includes`: substring containment. -/
def includes (s pat : String) : Bool :=
  decide (pat.toList <:+: s.toList)

/-- `RETRY_CONFIG` from geminiService.js. -/
structure RetryConfig where
  maxRetries : Nat
  baseDelay : Nat
  maxDelay : Nat

def RETRY_CONFIG : RetryConfig :=
  { maxRetries := 2, baseDelay := 2000, maxDelay := 20000 }

/-- Modelled from the source (`extractRetryDelay`, geminiService.js lines
25-34): the regex capture — a numeric seconds value taken from
`retry.*?(\d+\.?\d*)\s*s` or `retryDelay.*?(\d+)` in the error message — is
abstracted as an optional already-extracted seconds value (`none` when
neither pattern matches).  The arithmetic applied to the capture is the
source's `Math.ceil(parseFloat(match[1]) * 1000) + 500`. -/
def extractRetryDelay (capture : Option ℚ) : Option ℤ :=
  capture.map (fun s => ⌈s * 1000⌉ + 500)

/-- JS truthiness of an optional number: `null`/`undefined` and `0` are
falsy. -/
def jsTruthyInt : Option ℤ → Bool
  | some d => d != 0
  | none => false

/-- `getRetryDelay(attempt, suggestedDelay)` from geminiService.js lines
39-49.  `r` stands for the value drawn by `Math.random()` (a number in
[0,1)); the JS truthiness test `if (suggestedDelay)` is `jsTruthyInt`. -/
def getRetryDelay (attempt : Nat) (suggestedDelay : Option ℤ) (r : ℚ) : ℚ :=
  if jsTruthyInt suggestedDelay then
    min ((suggestedDelay.getD 0 : ℤ) : ℚ) (RETRY_CONFIG.maxDelay : ℚ)
  else
    (min ((RETRY_CONFIG.baseDelay : ℚ) * 2 ^ attempt) (RETRY_CONFIG.maxDelay : ℚ))
      * (8/10 + r * 4/10)

/-- The delay slept before retry `n` (`n ≥ 1`): both wrappers compute
`getRetryDelay(attempt - 1, extractRetryDelay(lastError))` with
`attempt = n` (geminiService.js lines 132-133 and 315-316). -/
def sleepBeforeRetry (n : Nat) (capture : Option ℚ) (r : ℚ) : ℚ :=
  getRetryDelay (n - 1) (extractRetryDelay capture) r

/-- Retryability test of `convertDiagramWithAI` (geminiService.js lines
157-160). -/
def retryableDiagram (e : Err) : Bool :=
  (e.status == some 404) || (e.status == some 503) || (e.status == some 429) ||
  includes e.message "404" || includes e.message "503" ||
  includes e.message "overloaded" || includes e.message "temporarily"

/-- Retryability test of `parseDocumentWithAI` (geminiService.js lines
335-339); note that unlike the diagram wrapper it never looks at a status
code. -/
def retryableParse (e : Err) : Bool :=
  includes e.message "429" || includes e.message "503" ||
  includes e.message "quota" || includes e.message "overloaded" ||
  includes e.message "rate"

/-- The retry loop shared (textually duplicated) by both AI wrappers:
`attempt` is the current attempt index, `remaining` the number of retries
still allowed (`RETRY_CONFIG.maxRetries - attempt` at the call site).
Returns the successful reply (or `none` when the wrapper must fall back)
together with the number of backend invocations performed.  Mirrors the
`for (let attempt = 0; attempt <= maxRetries; attempt++) { try … catch … }`
loop of geminiService.js lines 128-169 / 312-348. -/
def retryRun (oracle : Nat → Except Err α) (retryable : Err → Bool) :
    Nat → Nat → Option α × Nat
  | attempt, remaining =>
    match oracle attempt, remaining with
    | .ok v, _ => (some v, 1)
    | .error _, 0 => (none, 1)
    | .error e, remaining' + 1 =>
      if retryable e then
        let rest := retryRun oracle retryable (attempt + 1) remaining'
        (rest.1, rest.2 + 1)
      else (none, 1)

/-- The global Gemini client state: whether `model` is non-null
(`initializeGemini` succeeded) and the `useGemini` enable flag. -/
structure GeminiState where
  modelInit : Bool
  useGemini : Bool
deriving DecidableEq, Repr

/-- `isGeminiAvailable()` from geminiService.js lines 94-96. -/
def isGeminiAvailable (st : GeminiState) : Bool :=
  st.modelInit && st.useGemini

/-- One `{name, description}` component of a diagram analysis. -/
structure Component where
  name : String
  description : String
deriving DecidableEq, Repr

/-- One `{from, to, label}` connection of a diagram analysis.  (`from` is a
Lean keyword, hence the `src`/`dst` field names.)  An absent `label` is the
empty string, matching the JS truthiness test `conn.label ? … : ''`. -/
structure Connection where
  src : String
  dst : String
  label : String := ""
deriving DecidableEq, Repr

/-- The `DiagramAnalysis` value produced by `convertDiagramWithAI` /
`fallbackDiagramConversion`.  A JSON field that is absent is modelled as the
empty string / empty list (both are falsy exactly like `undefined` under the
truthiness tests the renderer applies). -/
structure DiagramAnalysis where
  success : Bool
  dtype : String
  title : String
  description : String
  components : List Component
  connections : List Connection
  summary : String
deriving DecidableEq, Repr

/-- The JSON object decoded from a successful AI diagram reply, before the
`{ success: true, ...parsed }` merge.  `success` is `Option Bool`: `none`
when the reply does not contain a `success` key (the shape the prompt
requests), `some b` when it does — in which case the object spread
overrides the `success: true` written before it. -/
structure ParsedDiagram where
  success : Option Bool := none
  dtype : String := ""
  title : String := ""
  description : String := ""
  components : List Component := []
  connections : List Connection := []
  summary : String := ""
deriving DecidableEq, Repr

/-- The `return { success: true, ...parsed }` merge of geminiService.js
lines 151-154: every field of the parsed reply wins over the literal that
precedes it in the object, so `success` is overridden whenever the reply
carries that key. -/
def mergeParsed (p : ParsedDiagram) : DiagramAnalysis :=
  { success := p.success.getD true
    dtype := p.dtype
    title := p.title
    description := p.description
    components := p.components
    connections := p.connections
    summary := p.summary }

/- ---- fallbackDiagramConversion (geminiService.js lines 179-211) ---- -/

/-- JS `s.split('\n')` as a structural scan: split at every newline,
keeping empty pieces (like the JS behavior, `""` yields `[""]` and a
trailing newline yields a trailing empty piece).  `acc` holds the current
piece reversed. -/
def splitLinesAux : List Char → List Char → List String
  | [], acc => [String.mk acc.reverse]
  | c :: cs, acc =>
    if c = '\n' then String.mk acc.reverse :: splitLinesAux cs []
    else splitLinesAux cs (c :: acc)

/-- JS `String.prototype.split` at newlines. -/
def jsSplitNl (s : String) : List String :=
  splitLinesAux s.toList []

/-- JS whitespace trim, left side: drop leading whitespace characters. -/
def trimLeftChars (l : List Char) : List Char :=
  l.dropWhile Char.isWhitespace

/-- JS `String.prototype.trim` on a character list: drop trailing then
leading whitespace. -/
def trimChars (l : List Char) : List Char :=
  trimLeftChars ((trimLeftChars l.reverse).reverse)

/-- JS `String.prototype.trim`. -/
def jsTrim (s : String) : String :=
  String.mk (trimChars s.toList)

/-- The character class of the first `replace` in
`fallbackDiagramConversion`: box-drawing glyphs, double-line variants,
arrows, geometric markers and square brackets. -/
def fallbackStripClass : List Char :=
  "─│┌┐└┘├┤┬┴┼═║╔╗╚╝╠╣╦╩╬▼▲◄►●○■□▪▫".toList ++ ['[', ']']

/-- The character class of the second `replace`: `[-|+*]`. -/
def fallbackStripAscii : List Char := ['-', '|', '+', '*']

/-- One line of the fallback analyzer: remove both character classes
(a global regex character-class `replace` deletes every member), then trim. -/
def cleanDiagramLine (line : String) : String :=
  String.mk (trimChars
    ((line.toList.filter (fun c => !(fallbackStripClass.contains c))).filter
      (fun c => !(fallbackStripAscii.contains c))))

/-- The `textContent` array built by the fallback analyzer: cleaned lines of
length `> 2`. -/
def fallbackTextContent (asciiDiagram : String) : List String :=
  ((jsSplitNl asciiDiagram).map cleanDiagramLine).filter
    (fun cleaned => 2 < cleaned.length)

/-- First-seen-order deduplication, as performed by `[...new Set(a)]`:
`seen` accumulates the values already emitted. -/
def dedupFirstAux [DecidableEq α] (seen : List α) : List α → List α
  | [] => []
  | x :: xs =>
    if x ∈ seen then dedupFirstAux seen xs
    else x :: dedupFirstAux (x :: seen) xs

/-- `[...new Set(a)]`: deduplicate keeping the first occurrence of each
value, preserving order. -/
def dedupFirst [DecidableEq α] (l : List α) : List α :=
  dedupFirstAux [] l

/-- `fallbackDiagramConversion` from geminiService.js lines 179-211. -/
def fallbackDiagramConversion (asciiDiagram : String) : DiagramAnalysis :=
  let textContent := fallbackTextContent asciiDiagram
  let uniqueContent := (dedupFirst textContent).filter (fun t => 2 < t.length)
  { success := true
    dtype := "architecture"
    title := "System Architecture Diagram"
    description := "Diagram converted from ASCII representation"
    components := (uniqueContent.take 20).map
      (fun text => { name := text, description := "" })
    connections := []
    summary := String.intercalate "\n• " uniqueContent }

/-- `convertDiagramWithAI` (geminiService.js lines 103-174), with the
backend abstracted as an oracle from attempt number to reply.  Returns the
analysis together with the number of `model.generateContent` invocations
performed.  `if (!model || !useGemini)` guards the whole loop; exhausted
retries and non-retryable errors both fall back to
`fallbackDiagramConversion`. -/
def convertDiagramWithAI (st : GeminiState)
    (oracle : Nat → Except Err ParsedDiagram) (asciiDiagram : String) :
    DiagramAnalysis × Nat :=
  if !st.modelInit || !st.useGemini then
    (fallbackDiagramConversion asciiDiagram, 0)
  else
    match retryRun oracle retryableDiagram 0 RETRY_CONFIG.maxRetries with
    | (some p, n) => (mergeParsed p, n)
    | (none, n) => (fallbackDiagramConversion asciiDiagram, n)

/- ---- AI document parsing (geminiService.js lines 230-351) ---- -/

/-- One inline run of an AI-parsed paragraph (`content` array entries):
`{ text, bold?, italic?, strikethrough?, code?, link? }`.  Absent boolean
flags are `false` (the renderer reads them as `item.bold || false`); an
absent `link` is the empty string (the renderer tests its truthiness). -/
structure InlineRun where
  text : String := ""
  bold : Bool := false
  italic : Bool := false
  strikethrough : Bool := false
  code : Bool := false
  link : String := ""
deriving DecidableEq, Repr

/-- The diagram payload of an AI-parsed `diagram` element (`title`,
`description`, `components`, `connections` — no `summary`). -/
structure AIDiagramData where
  title : String := ""
  description : String := ""
  components : List Component := []
  connections : List Connection := []
deriving DecidableEq, Repr

/-- One element of the AI-parsed document: the `switch (elem.type)` of
`processAIParsedElements` dispatches on the `type` string, so the embedding
is a sum with one constructor per known tag plus `unknown` for every other
tag (carrying the `text` field the default branch inspects; an absent
`text` is the empty string, both being falsy). -/
inductive AIElement where
  | heading (level : Option Nat) (text : String)
  | paragraph (content : List InlineRun)
  | code (language : String) (content : String)
  | table (headers : List String) (rows : List (List String))
  | list (items : List String) (ordered : Bool)
  | blockquote (text : String)
  | diagram (d : AIDiagramData)
  | hr
  | unknown (etype : String) (text : String)
deriving DecidableEq, Repr

/-- The JSON object decoded from a successful AI document-parsing reply:
`{ title, elements }`. -/
structure ParsedDoc where
  title : String := ""
  elements : List AIElement := []
deriving DecidableEq, Repr

/-- `parseDocumentWithAI` (geminiService.js lines 230-351): `none` models
the `null` that signals "fall back to the local parser"; the second
component counts `model.generateContent` invocations. -/
def parseDocumentWithAI (st : GeminiState)
    (oracle : Nat → Except Err ParsedDoc) (markdown : String) :
    Option ParsedDoc × Nat :=
  if !st.modelInit || !st.useGemini then (none, 0)
  else retryRun oracle retryableParse 0 RETRY_CONFIG.maxRetries

/- ---- markdownParser.js ---- -/

/-- The fixed glyph set of `isAsciiDiagram`'s regex character class
(markdownParser.js line 10). -/
def boxChars : List Char :=
  "─│┌┐└┘├┤┬┴┼═║╔╗╚╝╠╣╦╩╬▼▲◄►●○■□▪▫".toList

/-- `isAsciiDiagram` (markdownParser.js lines 9-12): true iff the text
contains at least one character of the glyph set. -/
def isAsciiDiagram (code : String) : Bool :=
  code.toList.any (fun c => boxChars.contains c)

/- ---- docxConverter.js : style configuration and output model ---- -/

/-- `STYLES.fonts`. -/
structure FontStyles where
  heading : String
  body : String
  code : String

/-- `STYLES.sizes` (point sizes; the runs use `size * 2` half-points). -/
structure SizeStyles where
  h1 : Nat
  h2 : Nat
  h3 : Nat
  h4 : Nat
  h5 : Nat
  h6 : Nat
  body : Nat
  code : Nat
  table : Nat

/-- `STYLES.colors`. -/
structure ColorStyles where
  heading : String
  body : String
  code : String
  codeBackground : String
  link : String
  tableHeader : String
  tableBorder : String
  diagramBg : String
  diagramBorder : String
  componentBg : String

/-- The process-wide style table of docxConverter.js lines 21-50. -/
structure Styles where
  fonts : FontStyles
  sizes : SizeStyles
  colors : ColorStyles

def STYLES : Styles :=
  { fonts := { heading := "Calibri", body := "Calibri", code := "Consolas" }
    sizes := { h1 := 28, h2 := 24, h3 := 20, h4 := 18, h5 := 16, h6 := 14
               body := 11, code := 10, table := 10 }
    colors := { heading := "1a1a1a", body := "333333", code := "24292e"
                codeBackground := "f6f8fa", link := "0366d6"
                tableHeader := "f6f8fa", tableBorder := "d0d7de"
                diagramBg := "e8f4fd", diagramBorder := "0366d6"
                componentBg := "ffffff" } }

/-- `convertInchesToTwip` of the docx library: 1 inch = 1440 twips. -/
def convertInchesToTwip (inches : ℚ) : ℚ := inches * 1440

/-- One `new TextRun({...})` option object.  A key that the source omits is
`none`/`false`/`0`; `shadingColor` is the `shading: {type: SOLID, color}`
fill, `underlineSingle` the `underline: {type: SINGLE}` key, `lineBreak`
the `break: 1` key of soft/hard line breaks. -/
structure TextRun where
  text : String
  bold : Option Bool := none
  italics : Option Bool := none
  strike : Option Bool := none
  font : Option String := none
  size : Option Nat := none
  color : Option String := none
  shadingColor : Option String := none
  underlineSingle : Bool := false
  lineBreak : Nat := 0
deriving DecidableEq, Repr

/-- One `new Paragraph({...})` option object.  Border/width/margin styling
details carry only the structure the source varies: left and bottom borders
as flags, shading as its fill color, indentation in twips.  The
`Paragraph({ text: s })` shorthand is embedded as a single plain run. -/
structure Paragraph where
  children : List TextRun := []
  heading : Option Nat := none
  spacingBefore : Option Nat := none
  spacingAfter : Option Nat := none
  spacingLine : Option Nat := none
  shadingColor : Option String := none
  indentLeft : Option ℚ := none
  borderLeft : Bool := false
  borderBottom : Bool := false
deriving DecidableEq, Repr

/-- One `new TableCell({...})`: its paragraphs and its shading fill (the
margins/width options are constant in the source and not modelled). -/
structure TableCell where
  children : List Paragraph
  shadingColor : Option String := none
deriving DecidableEq, Repr

/-- One `new TableRow({...})`. -/
structure TableRow where
  children : List TableCell
deriving DecidableEq, Repr

/-- One `new Table({...})` (the constant width/border options are not
modelled). -/
structure Table where
  rows : List TableRow
deriving DecidableEq, Repr

/-- One element of the document body: the converter produces either
paragraphs or tables. -/
inductive DocxElement where
  | para (p : Paragraph)
  | table (t : Table)
deriving DecidableEq, Repr

/- ---- docxConverter.js : shared text helpers ---- -/

/-- Split a character list at the first occurrence of `c`: the part before
it and the part after it (the separator consumed).  The length bound is
carried in the result to feed termination proofs. -/
def splitFirstAt (c : Char) :
    (l : List Char) → Option { p : List Char × List Char // p.2.length < l.length }
  | [] => none
  | x :: xs =>
    if x = c then some ⟨([], xs), by simp⟩
    else
      match splitFirstAt c xs with
      | none => none
      | some ⟨(a, b), h⟩ => some ⟨(x :: a, b), by simpa using Nat.lt_succ_of_lt h⟩

/-- The link-replacing scan of `cleanText`'s final regex
(`/\[([^\]]+)\]\([^)]+\)/g → '$1'`): at each `[` try to match
`[text](url)` with nonempty `text` (no `]` inside) and nonempty `url`
(no `)` inside); on a match emit `text` and continue after the closing
`)`, otherwise emit the character and rescan from the next position. -/
def replaceLinks : List Char → List Char
  | [] => []
  | c :: rest =>
    if c = '[' then
      match splitFirstAt ']' rest with
      | some ⟨(inside, after), _⟩ =>
        if inside ≠ [] then
          match after with
          | '(' :: r2 =>
            match splitFirstAt ')' r2 with
            | some ⟨(url, after2), _⟩ =>
              if url ≠ [] then inside ++ replaceLinks after2
              else c :: replaceLinks rest
            | none => c :: replaceLinks rest
          | _ => c :: replaceLinks rest
        else c :: replaceLinks rest
      | none => c :: replaceLinks rest
    else c :: replaceLinks rest
termination_by l => l.length
decreasing_by
  all_goals simp_wf
  all_goals simp_all
  all_goals omega

/-- `cleanText` (docxConverter.js lines 1079-1087): strip `**`, `*` and
backtick characters, replace `[text](url)` links by their text, then trim.
The `if (!text) return ''` guard is the empty-string test. -/
def cleanText (text : String) : String :=
  if text = "" then ""
  else
    jsTrim (String.mk (replaceLinks
      (((text.replace "**" "").toList.filter (fun c => c ≠ '*')).filter
        (fun c => c ≠ '`'))))

/-- One markdown-it token, as consumed by the token walker: its `type`
string, tag, raw content, fence info string and nested inline children.
(The JS object has further fields the converter never reads.) -/
inductive Token where
  | make (ttype : String) (tag : String) (content : String) (info : String)
      (children : List Token)

def Token.ttype : Token → String
  | .make t _ _ _ _ => t

def Token.tag : Token → String
  | .make _ t _ _ _ => t

def Token.content : Token → String
  | .make _ _ c _ _ => c

def Token.info : Token → String
  | .make _ _ _ i _ => i

def Token.children : Token → List Token
  | .make _ _ _ _ c => c

/-- `extractTextFromInline` (docxConverter.js lines 981-987). -/
def extractTextFromInline (tokens : List Token) : String :=
  String.join ((tokens.filter (fun t =>
    t.ttype = "text" || t.ttype = "code_inline" || t.ttype = "emoji")).map
      Token.content)

/- ---- docxConverter.js : paragraph/heading/code builders ---- -/

/-- `headingLevels[level]`, with `|| HeadingLevel.HEADING_1` applied by the
caller: levels 1-6 map to themselves, anything else falls back to 1. -/
def headingLevelLookup (level : Nat) : Nat :=
  if 1 ≤ level ∧ level ≤ 6 then level else 1

/-- The `sizes` lookup of `createHeading`: `none` models the `undefined`
lookup (and the `NaN` size it produces) for a level outside 1-6. -/
def headingSizeLookup (level : Nat) : Option Nat :=
  match level with
  | 1 => some STYLES.sizes.h1
  | 2 => some STYLES.sizes.h2
  | 3 => some STYLES.sizes.h3
  | 4 => some STYLES.sizes.h4
  | 5 => some STYLES.sizes.h5
  | 6 => some STYLES.sizes.h6
  | _ => none

/-- `createHeading` (docxConverter.js lines 489-521). -/
def createHeading (text : String) (level : Nat) : Paragraph :=
  { heading := some (headingLevelLookup level)
    spacingBefore := some 240
    spacingAfter := some 120
    children := [{ text := cleanText text
                   bold := some true
                   size := (headingSizeLookup level).map (· * 2)
                   font := some STYLES.fonts.heading
                   color := some STYLES.colors.heading }] }

/-- The mutable `formatting` record of `processInlineTokens`. -/
structure Formatting where
  bold : Bool := false
  italic : Bool := false
  code : Bool := false
  strikethrough : Bool := false
deriving DecidableEq, Repr

/-- `createTextRun` (docxConverter.js lines 613-623). -/
def createTextRun (text : String) (formatting : Formatting) : TextRun :=
  { text := text
    bold := some formatting.bold
    italics := some formatting.italic
    strike := some formatting.strikethrough
    font := some STYLES.fonts.body
    size := some (STYLES.sizes.body * 2)
    color := some STYLES.colors.body }

/-- `processInlineTokens` (docxConverter.js lines 538-608): a walk over the
inline tokens carrying the formatting state toggled by the
`strong`/`em`/`s` open and close markers; `link_open` consumes the
following text token. -/
def processInlineTokens : Formatting → List Token → List TextRun
  | _, [] => []
  | fmt, t :: rest =>
    if t.ttype = "text" then
      createTextRun t.content fmt :: processInlineTokens fmt rest
    else if t.ttype = "emoji" then
      createTextRun t.content fmt :: processInlineTokens fmt rest
    else if t.ttype = "code_inline" then
      { text := t.content
        font := some STYLES.fonts.code
        size := some (STYLES.sizes.code * 2)
        shadingColor := some STYLES.colors.codeBackground }
        :: processInlineTokens fmt rest
    else if t.ttype = "strong_open" then
      processInlineTokens { fmt with bold := true } rest
    else if t.ttype = "strong_close" then
      processInlineTokens { fmt with bold := false } rest
    else if t.ttype = "em_open" then
      processInlineTokens { fmt with italic := true } rest
    else if t.ttype = "em_close" then
      processInlineTokens { fmt with italic := false } rest
    else if t.ttype = "s_open" then
      processInlineTokens { fmt with strikethrough := true } rest
    else if t.ttype = "s_close" then
      processInlineTokens { fmt with strikethrough := false } rest
    else if t.ttype = "link_open" then
      match hrest : rest with
      | next :: rest2 =>
        if next.ttype = "text" then
          { text := next.content
            color := some STYLES.colors.link
            underlineSingle := true } :: processInlineTokens fmt rest2
        else processInlineTokens fmt rest
      | [] => []
    else if t.ttype = "softbreak" ∨ t.ttype = "hardbreak" then
      { text := "", lineBreak := 1 } :: processInlineTokens fmt rest
    else processInlineTokens fmt rest
termination_by _ l => l.length
decreasing_by
  all_goals simp_wf
  all_goals simp_all
  all_goals omega

/-- `createParagraph` (docxConverter.js lines 526-533). -/
def createParagraph (inlineTokens : List Token) : Paragraph :=
  let children := processInlineTokens {} inlineTokens
  { spacingAfter := some 160
    children := if children.length > 0 then children else [{ text := "" }] }

/-- `createAIParagraph` (docxConverter.js lines 157-198): `code` wins over
`link`, which wins over the plain flag-styled run.  A non-list `content`
yields the empty paragraph; in the embedding `content` is always a list, so
only the element mapping remains. -/
def createAIParagraph (content : List InlineRun) : Paragraph :=
  { spacingAfter := some 160
    children := content.map (fun item =>
      if item.code then
        { text := item.text
          font := some STYLES.fonts.code
          size := some (STYLES.sizes.code * 2)
          shadingColor := some STYLES.colors.codeBackground }
      else if item.link ≠ "" then
        { text := item.text
          color := some STYLES.colors.link
          underlineSingle := true }
      else
        { text := item.text
          bold := some item.bold
          italics := some item.italic
          strike := some item.strikethrough
          font := some STYLES.fonts.body
          size := some (STYLES.sizes.body * 2)
          color := some STYLES.colors.body }) }

/-- `createCodeBlock` (docxConverter.js lines 817-867): an optional
language label, one paragraph per source line (empty lines becoming single
spaces), and a trailing spacer. -/
def createCodeBlock (code : String) (language : String) : List Paragraph :=
  (if language ≠ "" then
    [{ spacingBefore := some 120
       spacingAfter := some 0
       shadingColor := some "d0d7de"
       children := [{ text := "  " ++ language.toUpper
                      font := some STYLES.fonts.code
                      size := some (16 * 2)
                      bold := some true
                      color := some "57606a" }] }]
  else []) ++
  ((jsSplitNl code).map (fun line =>
    { spacingAfter := some 0
      spacingBefore := some 0
      spacingLine := some 260
      shadingColor := some STYLES.colors.codeBackground
      children := [{ text := "  " ++ (if line = "" then " " else line)
                     font := some STYLES.fonts.code
                     size := some (STYLES.sizes.code * 2)
                     color := some STYLES.colors.code }] })) ++
  [{ spacingAfter := some 160 }]

/- ---- docxConverter.js : tables ---- -/

/-- `createAITable` (docxConverter.js lines 203-261): a header row from
`headers` (when nonempty) followed by one row per entry of `rows`, each
row's cells taken as-is from the entry. -/
def createAITable (headers : List String) (rows : List (List String)) : Table :=
  { rows :=
      (if headers.length > 0 then
        [{ children := headers.map (fun h =>
            { children := [{ spacingBefore := some 40
                             spacingAfter := some 40
                             children := [{ text := h
                                            bold := some true
                                            font := some STYLES.fonts.body
                                            size := some (STYLES.sizes.table * 2)
                                            color := some "24292f" }] }]
              shadingColor := some STYLES.colors.tableHeader }) }]
      else []) ++
      rows.map (fun row =>
        { children := row.map (fun cell =>
            { children := [{ spacingBefore := some 40
                             spacingAfter := some 40
                             children := [{ text := cell
                                            font := some STYLES.fonts.body
                                            size := some (STYLES.sizes.table * 2)
                                            color := some STYLES.colors.body }] }] }) }) }

/-- One scanned cell of the local table walk (`{content, isHeader}`). -/
structure TCellData where
  content : String
  isHeader : Bool
deriving DecidableEq, Repr

/-- One scanned row of the local table walk (`{cells, isHeader}`). -/
structure TRowData where
  cells : List TCellData
  isHeader : Bool
deriving DecidableEq, Repr

/-- The mutable state of `createTable`'s token scan. -/
structure TableScan where
  rows : List TRowData := []
  currentRow : List TCellData := []
  isHeader : Bool := false
  inCell : Bool := false
  cellContent : List String := []
deriving DecidableEq, Repr

/-- One step of `createTable`'s `for (const token of tokens)` switch
(docxConverter.js lines 879-914). -/
def tableScanStep (s : TableScan) (token : Token) : TableScan :=
  if token.ttype = "thead_open" then { s with isHeader := true }
  else if token.ttype = "thead_close" then { s with isHeader := false }
  else if token.ttype = "tr_open" then { s with currentRow := [] }
  else if token.ttype = "tr_close" then
    if s.currentRow.length > 0 then
      { s with rows := s.rows ++ [{ cells := s.currentRow, isHeader := s.isHeader }] }
    else s
  else if token.ttype = "th_open" ∨ token.ttype = "td_open" then
    { s with inCell := true, cellContent := [] }
  else if token.ttype = "th_close" ∨ token.ttype = "td_close" then
    { s with inCell := false
             currentRow := s.currentRow ++
               [{ content := String.join s.cellContent
                  isHeader := token.ttype = "th_close" }] }
  else if token.ttype = "inline" then
    if s.inCell then
      { s with cellContent := s.cellContent ++ [extractTextFromInline token.children] }
    else s
  else s

/-- The `rows` array accumulated by `createTable`'s scan. -/
def tableRowsOf (tokens : List Token) : List TRowData :=
  (tokens.foldl tableScanStep {}).rows

/-- `Math.max(...rows.map(r => r.cells.length))` (docxConverter.js line
920). -/
def tableColumnCount (tokens : List Token) : Nat :=
  ((tableRowsOf tokens).map (fun r => r.cells.length)).foldl max 0

/-- The rendering of one scanned cell (docxConverter.js lines 923-950). -/
def tableCellOf (cell : TCellData) : TableCell :=
  { children := [{ spacingBefore := some 40
                   spacingAfter := some 40
                   children := [{ text := cell.content
                                  bold := some cell.isHeader
                                  font := some STYLES.fonts.body
                                  size := some (STYLES.sizes.table * 2)
                                  color := some (if cell.isHeader then "24292f"
                                                 else STYLES.colors.body) }] }]
    shadingColor := if cell.isHeader then some STYLES.colors.tableHeader else none }

/-- The padding cell `new TableCell({children: [new Paragraph({text: ''})]})`
(docxConverter.js lines 955-957). -/
def emptyPaddingCell : TableCell :=
  { children := [{ children := [{ text := "" }] }] }

/-- `createTable` (docxConverter.js lines 872-976): scan the token span,
compute the maximum cell count, render every scanned row and pad short rows
with empty cells up to that count; an empty scan yields a plain empty
paragraph instead of a table. -/
def createTable (tokens : List Token) : DocxElement :=
  let rows := tableRowsOf tokens
  if rows.length = 0 then .para { children := [{ text := "" }] }
  else
    let columnCount := tableColumnCount tokens
    .table { rows := rows.map (fun row =>
      { children := row.cells.map tableCellOf ++
          List.replicate (columnCount - row.cells.length) emptyPaddingCell }) }

/- ---- docxConverter.js : lists, blockquotes, rules ---- -/

/-- The paragraph built for one list item (docxConverter.js lines 271-281 /
1004-1014, identical in both paths). -/
def listItemParagraph (textLine : String) : Paragraph :=
  { spacingAfter := some 80
    indentLeft := some (convertInchesToTwip (1/4))
    children := [{ text := textLine
                   font := some STYLES.fonts.body
                   size := some (STYLES.sizes.body * 2) }] }

/-- `createAIList` (docxConverter.js lines 266-283). -/
def createAIList (items : List String) (ordered : Bool) : List Paragraph :=
  items.enum.map (fun p =>
    listItemParagraph ((if ordered then toString (p.1 + 1) ++ ". " else "• ") ++ p.2))

/-- The mutable state of `createList`'s token scan. -/
structure ListScan where
  items : List Paragraph := []
  itemNumber : Nat := 1
  currentContent : String := ""
deriving DecidableEq, Repr

/-- One step of `createList`'s token loop (docxConverter.js lines
997-1017). -/
def listScanStep (isOrdered : Bool) (s : ListScan) (token : Token) : ListScan :=
  if token.ttype = "list_item_open" then { s with currentContent := "" }
  else if token.ttype = "inline" then
    { s with currentContent := extractTextFromInline token.children }
  else if token.ttype = "list_item_close" then
    { s with
      items := s.items ++
        [listItemParagraph
          ((if isOrdered then toString s.itemNumber ++ ". " else "• ")
            ++ s.currentContent)]
      itemNumber := s.itemNumber + 1 }
  else s

/-- `createList` (docxConverter.js lines 992-1020). -/
def createList (tokens : List Token) (isOrdered : Bool) : List Paragraph :=
  (tokens.foldl (listScanStep isOrdered) {}).items

/-- `createAIBlockquote` (docxConverter.js lines 288-309). -/
def createAIBlockquote (text : String) : Paragraph :=
  { spacingAfter := some 80
    indentLeft := some (convertInchesToTwip (1/2))
    borderLeft := true
    children := [{ text := "  " ++ text
                   font := some STYLES.fonts.body
                   size := some (STYLES.sizes.body * 2)
                   color := some "6a737d"
                   italics := some true }] }

/-- `createBlockquote` (docxConverter.js lines 1042-1074): the inline
tokens of the quoted span, each rendered as a bordered indented italic
paragraph (all other token types are skipped). -/
def createBlockquote (tokens : List Token) : List Paragraph :=
  tokens.filterMap (fun token =>
    if token.ttype = "inline" then
      some { spacingAfter := some 80
             indentLeft := some (convertInchesToTwip (1/2))
             borderLeft := true
             children := [{ text := "  " ++ extractTextFromInline token.children
                            font := some STYLES.fonts.body
                            size := some (STYLES.sizes.body * 2)
                            color := some "6a737d"
                            italics := some true }] }
    else none)

/-- `createHorizontalRule` (docxConverter.js lines 1025-1037). -/
def createHorizontalRule : Paragraph :=
  { spacingBefore := some 200
    spacingAfter := some 200
    borderBottom := true
    children := [{ text := "" }] }

/- ---- docxConverter.js : diagram rendering ---- -/

/-- `createComponentsTable` (docxConverter.js lines 748-812). -/
def createComponentsTable (components : List Component) : Table :=
  { rows :=
      [{ children :=
          [{ children := [{ children := [{ text := "Component"
                                           bold := some true
                                           size := some (STYLES.sizes.body * 2)
                                           color := some "ffffff" }] }]
             shadingColor := some STYLES.colors.diagramBorder },
           { children := [{ children := [{ text := "Description"
                                           bold := some true
                                           size := some (STYLES.sizes.body * 2)
                                           color := some "ffffff" }] }]
             shadingColor := some STYLES.colors.diagramBorder }] }] ++
      components.map (fun comp =>
        { children :=
            [{ children := [{ children := [{ text := comp.name
                                             bold := some true
                                             size := some (STYLES.sizes.body * 2)
                                             color := some STYLES.colors.diagramBorder }] }]
               shadingColor := some STYLES.colors.diagramBg },
             { children := [{ children := [{ text := if comp.description = ""
                                                     then "-" else comp.description
                                             size := some (STYLES.sizes.body * 2) }] }] }] }) }

/-- The diagram title banner paragraph (docxConverter.js lines 637-652 /
319-334). -/
def diagramTitleParagraph (title : String) : Paragraph :=
  { spacingBefore := some 240
    spacingAfter := some 120
    shadingColor := some STYLES.colors.diagramBorder
    children := [{ text := " 📊 " ++ title
                   bold := some true
                   size := some (24 * 2)
                   font := some STYLES.fonts.heading
                   color := some "ffffff" }] }

/-- The diagram description band paragraph (docxConverter.js lines 656-673
/ 338-355). -/
def diagramDescriptionParagraph (description : String) : Paragraph :=
  { spacingAfter := some 120
    shadingColor := some STYLES.colors.diagramBg
    children := [{ text := " " ++ description
                   italics := some true
                   size := some (STYLES.sizes.body * 2)
                   font := some STYLES.fonts.body
                   color := some "555555" }] }

/-- The `🔗 Data Flow:` heading plus one line per connection
(docxConverter.js lines 681-709 / 363-391); the label parenthetical is
omitted when the label is falsy. -/
def diagramConnectionElements (connections : List Connection) : List DocxElement :=
  .para { spacingBefore := some 160
          spacingAfter := some 80
          children := [{ text := "🔗 Data Flow:"
                         bold := some true
                         size := some (STYLES.sizes.body * 2)
                         font := some STYLES.fonts.heading }] } ::
  connections.map (fun conn =>
    .para { spacingAfter := some 60
            indentLeft := some (convertInchesToTwip (1/4))
            children := [{ text := "→ " ++ conn.src ++ "  ➜  " ++ conn.dst ++
                             (if conn.label ≠ "" then " (" ++ conn.label ++ ")" else "")
                           size := some (STYLES.sizes.body * 2)
                           font := some STYLES.fonts.body
                           color := some STYLES.colors.body }] })

/-- The element sequence `createDiagramBlock` builds from a diagram
analysis (docxConverter.js lines 628-743): title banner, description band,
components table, connection lines, a bulleted summary when there are no
components, and a trailing spacer. -/
def diagramAnalysisElements (analysis : DiagramAnalysis) : List DocxElement :=
  (if analysis.title ≠ "" then [.para (diagramTitleParagraph analysis.title)] else []) ++
  (if analysis.description ≠ "" then
    [.para (diagramDescriptionParagraph analysis.description)] else []) ++
  (if analysis.components.length > 0 then
    [.table (createComponentsTable analysis.components)] else []) ++
  (if analysis.connections.length > 0 then
    diagramConnectionElements analysis.connections else []) ++
  (if analysis.components.length = 0 ∧ analysis.summary ≠ "" then
    ((jsSplitNl analysis.summary).filter (fun l => jsTrim l ≠ "")).map (fun line =>
      .para { spacingAfter := some 60
              shadingColor := some STYLES.colors.diagramBg
              indentLeft := some (convertInchesToTwip (1/4))
              children := [{ text := if line.startsWith "•" then " " ++ line
                                     else " • " ++ line
                             size := some (STYLES.sizes.body * 2)
                             font := some STYLES.fonts.body }] })
  else []) ++
  [.para { spacingAfter := some 200 }]

/-- `createDiagramBlock` (docxConverter.js lines 628-743): analyze the
ASCII content through `convertDiagramWithAI` (counting its backend calls)
and render the analysis.  The `catch` branch cannot fire in the embedding
because the wrapper is total. -/
def createDiagramBlock (st : GeminiState)
    (oracle : Nat → Except Err ParsedDiagram) (asciiContent : String) :
    List DocxElement × Nat :=
  let res := convertDiagramWithAI st oracle asciiContent
  (diagramAnalysisElements res.1, res.2)

/-- `createAIDiagram` (docxConverter.js lines 314-397): like the local
diagram rendering but without the summary branch (AI-parsed diagram
elements carry no `summary` field). -/
def createAIDiagram (diagram : AIDiagramData) : List DocxElement :=
  (if diagram.title ≠ "" then [.para (diagramTitleParagraph diagram.title)] else []) ++
  (if diagram.description ≠ "" then
    [.para (diagramDescriptionParagraph diagram.description)] else []) ++
  (if diagram.components.length > 0 then
    [.table (createComponentsTable diagram.components)] else []) ++
  (if diagram.connections.length > 0 then
    diagramConnectionElements diagram.connections else []) ++
  [.para { spacingAfter := some 200 }]

/- ---- docxConverter.js : the two top-level walks ---- -/

/-- JS `elem.level || 1`: `undefined` and `0` fall back to the default. -/
def jsOrNat : Option Nat → Nat → Nat
  | some 0, d => d
  | some n, _ => n
  | none, d => d

/-- The `switch (elem.type)` body of `processAIParsedElements`
(docxConverter.js lines 106-148): every known tag maps to its builder; any
other tag reaches the default branch, which emits one plain paragraph when
the element's `text` is truthy and nothing otherwise. -/
def processAIElement (elem : AIElement) : List DocxElement :=
  match elem with
  | .heading level text => [.para (createHeading text (jsOrNat level 1))]
  | .paragraph content => [.para (createAIParagraph content)]
  | .code language content => (createCodeBlock content language).map .para
  | .table headers rows => [.table (createAITable headers rows)]
  | .list items ordered => (createAIList items ordered).map .para
  | .blockquote text => [.para (createAIBlockquote text)]
  | .diagram d => createAIDiagram d
  | .hr => [.para createHorizontalRule]
  | .unknown _ text =>
    if text ≠ "" then
      [.para { spacingAfter := some 160, children := [{ text := text }] }]
    else []

/-- `processAIParsedElements` (docxConverter.js lines 103-152). -/
def processAIParsedElements (parsed : ParsedDoc) : List DocxElement :=
  parsed.elements.foldl (fun elements e => elements ++ processAIElement e) []

/-- The scan of `findClosingToken` (docxConverter.js lines 474-484) from
index `i`, carrying the current depth; `none` models falling off the end of
the loop. -/
def findClosingAux (openType closeType : String) :
    List Token → Nat → Nat → Option Nat
  | [], _, _ => none
  | t :: rest, i, depth =>
    let d1 := if t.ttype = openType then depth + 1 else depth
    let d2 := if t.ttype = closeType then d1 - 1 else d1
    if d2 = 0 then some i else findClosingAux openType closeType rest (i + 1) d2

/-- `findClosingToken` (docxConverter.js lines 474-484): scan forward from
`startIndex + 1` counting matching open/close pairs; when no closer is
found return the last index of the stream.  (`closeType.replace('_close',
'_open')` acts on a single occurrence for every type used.) -/
def findClosingToken (tokens : List Token) (startIndex : Nat) (closeType : String) : Nat :=
  let openType := closeType.replace "_close" "_open"
  match findClosingAux openType closeType (tokens.drop (startIndex + 1))
      (startIndex + 1) 1 with
  | some i => i
  | none => tokens.length - 1

/-- `processTokens` (docxConverter.js lines 402-469), with the index
arithmetic of the `for` loop turned into list drops: `i += 2` skips the two
tokens following an open tag, and the matched-span cases resume after the
closing token found by `findClosingToken`.  The second component counts the
backend calls performed by diagram blocks.  The out-of-range access
`tokens[i+1]` of a truncated heading is modelled as empty content. -/
def processTokens (st : GeminiState)
    (diagOracle : String → Nat → Except Err ParsedDiagram) :
    List Token → List DocxElement × Nat
  | [] => ([], 0)
  | token :: rest =>
    if token.ttype = "heading_open" then
      let headingContent := (rest.head?.map Token.content).getD ""
      let level := (token.tag.drop 1).toNat?.getD 0
      let restRes := processTokens st diagOracle (rest.drop 2)
      (.para (createHeading headingContent level) :: restRes.1, restRes.2)
    else if token.ttype = "paragraph_open" then
      let restRes := processTokens st diagOracle (rest.drop 2)
      match rest.head? with
      | some c =>
        if c.ttype = "inline" then
          (.para (createParagraph c.children) :: restRes.1, restRes.2)
        else restRes
      | none => restRes
    else if token.ttype = "fence" then
      let restRes := processTokens st diagOracle rest
      if isAsciiDiagram token.content then
        let diag := createDiagramBlock st (diagOracle token.content) token.content
        (diag.1 ++ restRes.1, diag.2 + restRes.2)
      else ((createCodeBlock token.content token.info).map .para ++ restRes.1, restRes.2)
    else if token.ttype = "code_block" then
      let restRes := processTokens st diagOracle rest
      if isAsciiDiagram token.content then
        let diag := createDiagramBlock st (diagOracle token.content) token.content
        (diag.1 ++ restRes.1, diag.2 + restRes.2)
      else ((createCodeBlock token.content "").map .para ++ restRes.1, restRes.2)
    else if token.ttype = "table_open" then
      let tableEnd := findClosingToken (token :: rest) 0 "table_close"
      let tableTokens := (token :: rest).take (tableEnd + 1)
      let restRes := processTokens st diagOracle ((token :: rest).drop (tableEnd + 1))
      (createTable tableTokens :: restRes.1, restRes.2)
    else if token.ttype = "bullet_list_open" ∨ token.ttype = "ordered_list_open" then
      let closeType := if token.ttype = "ordered_list_open" then "ordered_list_close"
                       else "bullet_list_close"
      let listEnd := findClosingToken (token :: rest) 0 closeType
      let listTokens := (token :: rest).take (listEnd + 1)
      let isOrdered := token.ttype = "ordered_list_open"
      let restRes := processTokens st diagOracle ((token :: rest).drop (listEnd + 1))
      ((createList listTokens isOrdered).map .para ++ restRes.1, restRes.2)
    else if token.ttype = "hr" then
      let restRes := processTokens st diagOracle rest
      (.para createHorizontalRule :: restRes.1, restRes.2)
    else if token.ttype = "blockquote_open" then
      let bqEnd := findClosingToken (token :: rest) 0 "blockquote_close"
      let bqTokens := ((token :: rest).take bqEnd).drop 1
      let restRes := processTokens st diagOracle ((token :: rest).drop (bqEnd + 1))
      ((createBlockquote bqTokens).map .para ++ restRes.1, restRes.2)
    else processTokens st diagOracle rest
termination_by l => l.length
decreasing_by
  all_goals simp_wf
  all_goals omega

/-- The backend-invocation counters of one conversion: document-parsing
calls (`parseDocumentWithAI`) and diagram-analysis calls
(`convertDiagramWithAI`). -/
structure Calls where
  parseCalls : Nat := 0
  diagramCalls : Nat := 0
deriving DecidableEq, Repr

/-- `convertToDocx` (docxConverter.js lines 56-98): try the AI parse when
`useAI` is set and the client is available, use its elements when it
returned a nonempty element list, and otherwise tokenize locally with the
external markdown-it tokenizer (`parseToTokens`, passed here as a
parameter) and walk the tokens.  The final `Document`/`Packer` assembly
(fixed one-inch margins) belongs to the excluded docx library; the model
returns the body elements together with the backend call counts. -/
def convertToDocx (st : GeminiState)
    (parseOracle : Nat → Except Err ParsedDoc)
    (diagOracle : String → Nat → Except Err ParsedDiagram)
    (parseToTokens : String → List Token)
    (markdown : String) (useAI : Bool) :
    List DocxElement × Calls :=
  if useAI && isGeminiAvailable st then
    let aiRes := parseDocumentWithAI st parseOracle markdown
    match aiRes.1 with
    | some aiParsed =>
      if aiParsed.elements.length > 0 then
        (processAIParsedElements aiParsed, { parseCalls := aiRes.2 })
      else
        let tokRes := processTokens st diagOracle (parseToTokens markdown)
        (tokRes.1, { parseCalls := aiRes.2, diagramCalls := tokRes.2 })
    | none =>
      let tokRes := processTokens st diagOracle (parseToTokens markdown)
      (tokRes.1, { parseCalls := aiRes.2, diagramCalls := tokRes.2 })
  else
    let tokRes := processTokens st diagOracle (parseToTokens markdown)
    (tokRes.1, { diagramCalls := tokRes.2 })

/- ---- geminiService.js : reply cleanup (lines 140-143 / 324-327) ---- -/

/-- The characters of the fence tag `"```json"`. -/
def fenceJson : List Char := ['`', '`', '`', 'j', 's', 'o', 'n']

/-- The characters of the fence tag `"```"`. -/
def fence3 : List Char := ['`', '`', '`']

/-- Consume the optional newline of the `\n?` regex suffix. -/
def dropNl (l : List Char) : List Char :=
  if l.head? = some '\n' then l.tail else l

/-- `text.replace(/PAT\n?/g, '')` for a literal pattern `PAT`: scan left to
right; at each position remove the pattern (and one following newline, if
present) when it matches, otherwise keep the character.  Matches are
non-overlapping and scanning resumes after each removed match, exactly as
the JS global replace behaves. -/
def stripAll (pat : List Char) : List Char → List Char
  | [] => []
  | c :: r =>
    if pat.isPrefixOf (c :: r) ∧ pat ≠ [] then
      stripAll pat (dropNl ((c :: r).drop pat.length))
    else c :: stripAll pat r
termination_by l => l.length
decreasing_by
  · simp_wf
    rename_i h
    have hd : (dropNl (List.drop pat.length (x :: xs))).length ≤
        (List.drop pat.length (x :: xs)).length := by
      unfold dropNl
      split
      · simp [List.length_tail]
        omega
      · exact Nat.le_refl _
    have hp : 0 < pat.length := List.length_pos.mpr h.2
    simp [List.length_drop] at hd ⊢
    omega
  · simp_wf

/-- The reply cleanup both wrappers apply before `JSON.parse`
(geminiService.js lines 140-143 and 324-327): trim the reply text, delete
every occurrence of ```` ```json ````(with an optional following newline),
then every occurrence of `` ``` `` (likewise), then trim again. -/
def cleanAIResponse (raw : List Char) : List Char :=
  trimChars (stripAll fence3 (stripAll fenceJson (trimChars raw)))

/-- A reply wrapped in markdown code fences:
```` ```json\n<body>\n``` ````. -/
def wrapJsonFence (body : List Char) : List Char :=
  fenceJson ++ '\n' :: (body ++ '\n' :: fence3)

/-- The rows of a rendered table element (`[]` for a paragraph element):
projection used to state table-shape properties. -/
def DocxElement.tableRows : DocxElement → List TableRow
  | .table t => t.rows
  | .para _ => []

/-- A concrete token span of a two-row table whose second row is one cell
short: used to instantiate the padding property. -/
def tableWitnessTokens : List Token :=
  [Token.make "table_open" "" "" "" [],
   Token.make "thead_open" "" "" "" [],
   Token.make "tr_open" "" "" "" [],
   Token.make "th_open" "" "" "" [],
   Token.make "inline" "" "" "" [Token.make "text" "" "Name" "" []],
   Token.make "th_close" "" "" "" [],
   Token.make "th_open" "" "" "" [],
   Token.make "inline" "" "" "" [Token.make "text" "" "Role" "" []],
   Token.make "th_close" "" "" "" [],
   Token.make "tr_close" "" "" "" [],
   Token.make "thead_close" "" "" "" [],
   Token.make "tbody_open" "" "" "" [],
   Token.make "tr_open" "" "" "" [],
   Token.make "td_open" "" "" "" [],
   Token.make "inline" "" "" "" [Token.make "text" "" "Ada" "" []],
   Token.make "td_close" "" "" "" [],
   Token.make "tr_close" "" "" "" [],
   Token.make "tbody_close" "" "" "" [],
   Token.make "table_close" "" "" "" []]

/- ======================================================================
   Theorems
   ====================================================================== -/

/- ---- helper lemmas: first-seen deduplication ---- -/

theorem dedupFirstAux_sublist [DecidableEq α] (seen : List α) (l : List α) :
    (dedupFirstAux seen l).Sublist l := by
  induction l generalizing seen with
  | nil => simp [dedupFirstAux]
  | cons x xs ih =>
    simp only [dedupFirstAux]
    split
    · exact (ih seen).cons x
    · exact (ih (x :: seen)).cons₂ x

theorem mem_dedupFirstAux [DecidableEq α] (seen : List α) (l : List α) (a : α) :
    a ∈ dedupFirstAux seen l ↔ a ∈ l ∧ a ∉ seen := by
  induction l generalizing seen with
  | nil => simp [dedupFirstAux]
  | cons x xs ih =>
    simp only [dedupFirstAux]
    split
    · rename_i hx
      rw [ih]
      constructor
      · rintro ⟨h1, h2⟩
        exact ⟨List.mem_cons_of_mem x h1, h2⟩
      · rintro ⟨h1, h2⟩
        rcases List.mem_cons.mp h1 with rfl | h
        · exact absurd hx h2
        · exact ⟨h, h2⟩
    · rename_i hx
      constructor
      · intro hmem
        rcases List.mem_cons.mp hmem with rfl | hmem'
        · exact ⟨List.mem_cons_self _ _, hx⟩
        · obtain ⟨h1, h2⟩ := (ih (x :: seen)).mp hmem'
          exact ⟨List.mem_cons_of_mem x h1,
            fun hs => h2 (List.mem_cons_of_mem x hs)⟩
      · rintro ⟨h1, h2⟩
        by_cases hax : a = x
        · subst hax
          exact List.mem_cons_self _ _
        · rcases List.mem_cons.mp h1 with h | h1'
          · exact absurd h hax
          · refine List.mem_cons_of_mem x ((ih (x :: seen)).mpr ⟨h1', ?_⟩)
            intro hs
            rcases List.mem_cons.mp hs with h | hs'
            · exact hax h
            · exact h2 hs'

theorem dedupFirstAux_nodup [DecidableEq α] (seen : List α) (l : List α) :
    (dedupFirstAux seen l).Nodup := by
  induction l generalizing seen with
  | nil => simp [dedupFirstAux]
  | cons x xs ih =>
    simp only [dedupFirstAux]
    split
    · exact ih seen
    · refine List.nodup_cons.mpr ⟨?_, ih (x :: seen)⟩
      intro hmem
      exact ((mem_dedupFirstAux (x :: seen) xs x).mp hmem).2 (List.mem_cons_self x _)

/- ---- C7 ---- -/

/-- C7: `isAsciiDiagram` returns true iff the text contains at least one
character of the fixed glyph set `boxChars` (box-drawing lines, corners and
junctions, double-line variants, arrows, geometric markers), and false
otherwise.  Being a plain function of its argument, it is pure by
construction. -/
theorem C7_isAsciiDiagram_iff (s : String) :
    isAsciiDiagram s = true ↔ ∃ c ∈ s.toList, c ∈ boxChars := by
  simp [isAsciiDiagram, List.any_eq_true]

/- ---- C5 ---- -/

/-- C5: on every input, the fallback diagram analyzer strips the
box-drawing and frame glyphs line by line, trims, keeps only fragments of
length `> 2` (`fallbackTextContent`), deduplicates them preserving
first-seen order (the component names form a duplicate-free sublist of the
fragment list that still contains every fragment), emits at most 20
components, each with empty description, an always-empty connections array,
and the summary joining the deduplicated fragments with the `\n• `
separator. -/
theorem C5_fallback_properties (s : String) :
    (fallbackDiagramConversion s).connections = [] ∧
    (fallbackDiagramConversion s).components.length ≤ 20 ∧
    ((fallbackDiagramConversion s).components.map Component.name).Nodup ∧
    ((fallbackDiagramConversion s).components.map Component.name).Sublist
      (fallbackTextContent s) ∧
    (∀ comp ∈ (fallbackDiagramConversion s).components,
      comp.description = "" ∧ 2 < comp.name.length) ∧
    (∀ x ∈ fallbackTextContent s, x ∈ dedupFirst (fallbackTextContent s)) ∧
    (fallbackDiagramConversion s).summary =
      String.intercalate "\n• "
        ((dedupFirst (fallbackTextContent s)).filter (fun t => 2 < t.length)) := by
  have hnames : (fallbackDiagramConversion s).components.map Component.name =
      (((dedupFirst (fallbackTextContent s)).filter
        (fun t => 2 < t.length)).take 20) := by
    simp only [fallbackDiagramConversion, List.map_map]
    rw [show (Component.name ∘ fun text => ({ name := text, description := "" } : Component))
        = fun t => t from rfl]
    simp
  refine ⟨rfl, ?_, ?_, ?_, ?_, ?_, rfl⟩
  · simp [fallbackDiagramConversion]
  · rw [hnames]
    exact List.Nodup.sublist
      ((List.take_sublist 20 _).trans (List.filter_sublist _))
      (dedupFirstAux_nodup [] _)
  · rw [hnames]
    exact ((List.take_sublist 20 _).trans (List.filter_sublist _)).trans
      (dedupFirstAux_sublist [] _)
  · intro comp hcomp
    simp only [fallbackDiagramConversion] at hcomp
    simp only [List.mem_map] at hcomp
    obtain ⟨t, ht, rfl⟩ := hcomp
    refine ⟨rfl, ?_⟩
    have := (List.mem_filter.mp (List.mem_of_mem_take ht)).2
    simpa using this
  · intro x hx
    rw [dedupFirst, mem_dedupFirstAux]
    exact ⟨hx, by simp⟩

/- ---- C6 ---- -/

/-- C6: for the `n`-th retry (`n ≥ 1`), when the previous error's text
yields a server-suggested delay of `s` seconds (`s ≥ 0`, the regex captures
a nonnegative numeral), the slept delay is
`min(⌈s·1000⌉ + 500, 20000)` with no jitter; without a suggestion it is
`min(2000·2^(n-1), 20000)` times a jitter factor lying in `[0.8, 1.2]`
(namely `0.8 + 0.4·r` for the drawn `r ∈ [0,1)`). -/
theorem C6_retry_delay (n : Nat) (hn : 1 ≤ n) (r : ℚ) (hr0 : 0 ≤ r) (hr1 : r < 1) :
    (∀ s : ℚ, 0 ≤ s →
      sleepBeforeRetry n (some s) r =
        min (((⌈s * 1000⌉ : ℤ) : ℚ) + 500) 20000) ∧
    (∃ jitter : ℚ, 8/10 ≤ jitter ∧ jitter ≤ 12/10 ∧
      sleepBeforeRetry n none r =
        min ((2000 : ℚ) * 2 ^ (n - 1)) 20000 * jitter) := by
  constructor
  · intro s hs
    have hpos : (0 : ℤ) < ⌈s * 1000⌉ + 500 := by
      have : (0 : ℤ) ≤ ⌈s * 1000⌉ := Int.ceil_nonneg (by positivity)
      omega
    simp [sleepBeforeRetry, extractRetryDelay, getRetryDelay, jsTruthyInt,
      RETRY_CONFIG, hpos.ne']
  · refine ⟨8/10 + r * 4/10, by linarith, by linarith, ?_⟩
    simp [sleepBeforeRetry, extractRetryDelay, getRetryDelay, jsTruthyInt, RETRY_CONFIG]

/-- Witness for C6 at `n = 1`, `r = 0`, suggested seconds `s = 3/2`. -/
theorem C6_retry_delay_witness :
    1 ≤ 1 ∧ (0 : ℚ) ≤ 3/2 ∧
    sleepBeforeRetry 1 (some (3/2)) 0 =
      min (((⌈(3/2 : ℚ) * 1000⌉ : ℤ) : ℚ) + 500) 20000 := by
  refine ⟨le_refl 1, by norm_num, ?_⟩
  exact (C6_retry_delay 1 (le_refl 1) 0 (le_refl 0) (by norm_num)).1 (3/2) (by norm_num)

/- ---- helper lemmas: the retry loop ---- -/

theorem retryRun_ok (oracle : Nat → Except Err α) (p : Err → Bool)
    (attempt remaining : Nat) (v : α) (h : oracle attempt = .ok v) :
    retryRun oracle p attempt remaining = (some v, 1) := by
  cases remaining <;> simp [retryRun, h]

theorem retryRun_error_zero (oracle : Nat → Except Err α) (p : Err → Bool)
    (attempt : Nat) (e : Err) (h : oracle attempt = .error e) :
    retryRun oracle p attempt 0 = (none, 1) := by
  simp [retryRun, h]

theorem retryRun_error_stop (oracle : Nat → Except Err α) (p : Err → Bool)
    (attempt remaining : Nat) (e : Err) (h : oracle attempt = .error e)
    (hp : p e = false) :
    retryRun oracle p attempt remaining = (none, 1) := by
  cases remaining <;> simp [retryRun, h, hp]

theorem retryRun_error_step (oracle : Nat → Except Err α) (p : Err → Bool)
    (attempt remaining : Nat) (e : Err) (h : oracle attempt = .error e)
    (hp : p e = true) :
    retryRun oracle p attempt (remaining + 1) =
      ((retryRun oracle p (attempt + 1) remaining).1,
       (retryRun oracle p (attempt + 1) remaining).2 + 1) := by
  simp [retryRun, h, hp]

theorem retryRun_all_fail (oracle : Nat → Except Err α) (p : Err → Bool)
    (errs : Nat → Err) (hor : ∀ i, oracle i = .error (errs i))
    (hp : ∀ i, p (errs i) = true) :
    ∀ remaining attempt, retryRun oracle p attempt remaining = (none, remaining + 1) := by
  intro remaining
  induction remaining with
  | zero => intro attempt; exact retryRun_error_zero oracle p attempt _ (hor attempt)
  | succ k ih =>
    intro attempt
    rw [retryRun_error_step oracle p attempt k _ (hor attempt) (hp attempt), ih (attempt + 1)]

theorem retryRun_some_source (oracle : Nat → Except Err α) (p : Err → Bool) (v : α) :
    ∀ remaining attempt,
      (retryRun oracle p attempt remaining).1 = some v → ∃ i, oracle i = .ok v := by
  intro remaining
  induction remaining with
  | zero =>
    intro attempt h
    cases hor : oracle attempt with
    | ok w =>
      rw [retryRun_ok oracle p attempt 0 w hor] at h
      cases h
      exact ⟨attempt, hor⟩
    | error e =>
      rw [retryRun_error_zero oracle p attempt e hor] at h
      cases h
  | succ k ih =>
    intro attempt h
    cases hor : oracle attempt with
    | ok w =>
      rw [retryRun_ok oracle p attempt (k + 1) w hor] at h
      cases h
      exact ⟨attempt, hor⟩
    | error e =>
      cases hp : p e with
      | false =>
        rw [retryRun_error_stop oracle p attempt (k + 1) e hor hp] at h
        cases h
      | true =>
        rw [retryRun_error_step oracle p attempt k e hor hp] at h
        exact ih (attempt + 1) h

/- ---- C4 ---- -/

/-- C4: when the backend fails on every attempt with an error the wrapper's
own retryability test accepts, exactly 3 backend calls occur
(initial + 2 retries) and the wrapper returns its fallback value — the
`fallbackDiagramConversion` result for `convertDiagramWithAI`, `none`
(`null`) for `parseDocumentWithAI` — and when the first attempt fails with
a non-retryable error, exactly 1 call occurs before the same fallback.
Both wrappers are total functions: no failure is raised to the caller. -/
theorem C4_retry_counts :
    (∀ (st : GeminiState) (oracle : Nat → Except Err ParsedDiagram)
       (errs : Nat → Err) (d : String),
      isGeminiAvailable st = true →
      (∀ i, oracle i = .error (errs i)) →
      (∀ i, retryableDiagram (errs i) = true) →
      convertDiagramWithAI st oracle d = (fallbackDiagramConversion d, 3)) ∧
    (∀ (st : GeminiState) (oracle : Nat → Except Err ParsedDoc)
       (errs : Nat → Err) (md : String),
      isGeminiAvailable st = true →
      (∀ i, oracle i = .error (errs i)) →
      (∀ i, retryableParse (errs i) = true) →
      parseDocumentWithAI st oracle md = (none, 3)) ∧
    (∀ (st : GeminiState) (oracle : Nat → Except Err ParsedDiagram)
       (e : Err) (d : String),
      isGeminiAvailable st = true →
      oracle 0 = .error e → retryableDiagram e = false →
      convertDiagramWithAI st oracle d = (fallbackDiagramConversion d, 1)) ∧
    (∀ (st : GeminiState) (oracle : Nat → Except Err ParsedDoc)
       (e : Err) (md : String),
      isGeminiAvailable st = true →
      oracle 0 = .error e → retryableParse e = false →
      parseDocumentWithAI st oracle md = (none, 1)) := by
  have havail : ∀ st : GeminiState, isGeminiAvailable st = true →
      (!st.modelInit || !st.useGemini) = false := by
    intro st h
    simp [isGeminiAvailable] at h
    simp [h.1, h.2]
  refine ⟨?_, ?_, ?_, ?_⟩
  · intro st oracle errs d hav hor hp
    rw [convertDiagramWithAI, if_neg (by simp [havail st hav])]
    rw [show RETRY_CONFIG.maxRetries = 2 from rfl,
      retryRun_all_fail oracle retryableDiagram errs hor hp 2 0]
  · intro st oracle errs md hav hor hp
    rw [parseDocumentWithAI, if_neg (by simp [havail st hav])]
    rw [show RETRY_CONFIG.maxRetries = 2 from rfl,
      retryRun_all_fail oracle retryableParse errs hor hp 2 0]
  · intro st oracle e d hav hor hp
    rw [convertDiagramWithAI, if_neg (by simp [havail st hav])]
    rw [retryRun_error_stop oracle retryableDiagram 0 RETRY_CONFIG.maxRetries e hor hp]
  · intro st oracle e md hav hor hp
    rw [parseDocumentWithAI, if_neg (by simp [havail st hav])]
    rw [retryRun_error_stop oracle retryableParse 0 RETRY_CONFIG.maxRetries e hor hp]

/-- Witness for C4: an always-503 backend makes the diagram wrapper fall
back after exactly 3 calls, and a first-attempt non-retryable error makes
the document parser fall back after exactly 1 call. -/
theorem C4_retry_counts_witness :
    convertDiagramWithAI ⟨true, true⟩
      (fun _ => .error { status := some 503, message := "Service Unavailable" }) "┌─┐" =
      (fallbackDiagramConversion "┌─┐", 3) ∧
    parseDocumentWithAI ⟨true, true⟩
      (fun _ => .error { status := none, message := "invalid api key" }) "# doc" =
      (none, 1) := by
  constructor
  · exact C4_retry_counts.1 ⟨true, true⟩ _
      (fun _ => { status := some 503, message := "Service Unavailable" }) "┌─┐"
      (by decide) (fun i => rfl)
      (fun i => (by decide :
        retryableDiagram { status := some 503, message := "Service Unavailable" } = true))
  · exact C4_retry_counts.2.2.2 ⟨true, true⟩ _
      { status := none, message := "invalid api key" } "# doc"
      (by decide) rfl (by decide)

/- ---- C3 ---- -/

/-- Counterexample to C3 as stated: the error message `"quota exceeded"`
matches the claimed common set (it contains `"quota"`), yet
`convertDiagramWithAI` performs exactly one backend call — no retry — and
returns the fallback, because its own retryability test does not include
`"quota"` (or `"rate"` or a 429 message). -/
theorem C3_counterexample :
    includes "quota exceeded" "quota" = true ∧
    (convertDiagramWithAI ⟨true, true⟩
      (fun n => if n = 0 then .error { status := none, message := "quota exceeded" }
                else .ok {}) "┌─┐").2 = 1 := by
  constructor
  · decide
  · decide

/-- C3 (amended): each wrapper has its own retryability set, and a
non-matching error stops its loop after the first attempt.  With a backend
failing once and then succeeding, a retry happens in
`convertDiagramWithAI` iff the error's status code is 404, 503 or 429, or
its message contains `"404"`, `"503"`, `"overloaded"` or `"temporarily"`;
in `parseDocumentWithAI` iff the message contains `"429"`, `"503"`,
`"quota"`, `"overloaded"` or `"rate"` (status codes are never consulted
there). -/
theorem C3_retryability_per_wrapper (st : GeminiState) (e : Err)
    (oracleD : Nat → Except Err ParsedDiagram) (oracleP : Nat → Except Err ParsedDoc)
    (vD : ParsedDiagram) (vP : ParsedDoc)
    (hav : isGeminiAvailable st = true)
    (hD0 : oracleD 0 = .error e) (hD1 : oracleD 1 = .ok vD)
    (hP0 : oracleP 0 = .error e) (hP1 : oracleP 1 = .ok vP) :
    ((convertDiagramWithAI st oracleD "d").2 = 2 ↔
      (e.status = some 404 ∨ e.status = some 503 ∨ e.status = some 429 ∨
       "404".toList <:+: e.message.toList ∨ "503".toList <:+: e.message.toList ∨
       "overloaded".toList <:+: e.message.toList ∨
       "temporarily".toList <:+: e.message.toList)) ∧
    ((convertDiagramWithAI st oracleD "d").2 = 1 ↔
      ¬ (e.status = some 404 ∨ e.status = some 503 ∨ e.status = some 429 ∨
       "404".toList <:+: e.message.toList ∨ "503".toList <:+: e.message.toList ∨
       "overloaded".toList <:+: e.message.toList ∨
       "temporarily".toList <:+: e.message.toList)) ∧
    ((parseDocumentWithAI st oracleP "md").2 = 2 ↔
      ("429".toList <:+: e.message.toList ∨ "503".toList <:+: e.message.toList ∨
       "quota".toList <:+: e.message.toList ∨
       "overloaded".toList <:+: e.message.toList ∨
       "rate".toList <:+: e.message.toList)) ∧
    ((parseDocumentWithAI st oracleP "md").2 = 1 ↔
      ¬ ("429".toList <:+: e.message.toList ∨ "503".toList <:+: e.message.toList ∨
       "quota".toList <:+: e.message.toList ∨
       "overloaded".toList <:+: e.message.toList ∨
       "rate".toList <:+: e.message.toList)) := by
  have havail : (!st.modelInit || !st.useGemini) = false := by
    simp [isGeminiAvailable] at hav
    simp [hav.1, hav.2]
  have hDiter : retryableDiagram e = true ↔
      (e.status = some 404 ∨ e.status = some 503 ∨ e.status = some 429 ∨
       "404".toList <:+: e.message.toList ∨ "503".toList <:+: e.message.toList ∨
       "overloaded".toList <:+: e.message.toList ∨
       "temporarily".toList <:+: e.message.toList) := by
    simp [retryableDiagram, includes]
    tauto
  have hPiter : retryableParse e = true ↔
      ("429".toList <:+: e.message.toList ∨ "503".toList <:+: e.message.toList ∨
       "quota".toList <:+: e.message.toList ∨
       "overloaded".toList <:+: e.message.toList ∨
       "rate".toList <:+: e.message.toList) := by
    simp [retryableParse, includes]
    tauto
  have hDrun : (convertDiagramWithAI st oracleD "d").2 =
      if retryableDiagram e then 2 else 1 := by
    rw [convertDiagramWithAI, if_neg (by simp [havail])]
    cases hp : retryableDiagram e with
    | true =>
      rw [show RETRY_CONFIG.maxRetries = 2 from rfl,
        retryRun_error_step oracleD retryableDiagram 0 1 e hD0 hp,
        retryRun_ok oracleD retryableDiagram 1 1 vD hD1]
      simp
    | false =>
      rw [retryRun_error_stop oracleD retryableDiagram 0 RETRY_CONFIG.maxRetries e hD0 hp]
      simp
  have hPrun : (parseDocumentWithAI st oracleP "md").2 =
      if retryableParse e then 2 else 1 := by
    rw [parseDocumentWithAI, if_neg (by simp [havail])]
    cases hp : retryableParse e with
    | true =>
      rw [show RETRY_CONFIG.maxRetries = 2 from rfl,
        retryRun_error_step oracleP retryableParse 0 1 e hP0 hp,
        retryRun_ok oracleP retryableParse 1 1 vP hP1]
      simp
    | false =>
      rw [retryRun_error_stop oracleP retryableParse 0 RETRY_CONFIG.maxRetries e hP0 hp]
      simp
  rw [hDrun, hPrun]
  rw [← hDiter, ← hPiter]
  cases hd : retryableDiagram e <;> cases hp : retryableParse e <;> simp

/-- Witness for C3 (amended): a bare 404 status retries the diagram
wrapper (2 calls) but, carrying no matching message text, stops the
document parser after 1 call. -/
theorem C3_retryability_witness :
    (convertDiagramWithAI ⟨true, true⟩
      (fun n => if n = 0 then .error { status := some 404, message := "Not Found" }
                else .ok {}) "d").2 = 2 ∧
    (parseDocumentWithAI ⟨true, true⟩
      (fun n => if n = 0 then .error { status := some 404, message := "Not Found" }
                else .ok {}) "md").2 = 1 := by
  have h := C3_retryability_per_wrapper ⟨true, true⟩
    { status := some 404, message := "Not Found" }
    (fun n => if n = 0 then .error { status := some 404, message := "Not Found" }
              else .ok {})
    (fun n => if n = 0 then .error { status := some 404, message := "Not Found" }
              else .ok {})
    {} {} (by decide) rfl rfl rfl rfl
  exact ⟨h.1.mpr (Or.inl rfl), h.2.2.2.mpr (by decide)⟩

/- ---- C9 ---- -/

/-- Counterexample to C9 as stated: when the AI reply itself contains a
`success` key, the object spread `{ success: true, ...parsed }` lets it
override the literal, so `convertDiagramWithAI` can return
`success = false`. -/
theorem C9_counterexample :
    (convertDiagramWithAI ⟨true, true⟩
      (fun _ => .ok { success := some false }) "┌─┐").1.success = false := by
  decide

/-- C9 (amended): the `success` field is `true` for every fallback result
and for every AI reply that does not itself carry a `success` key (the
shape the prompt requests); only a reply carrying its own `success` key can
make it `false`, via the object spread. -/
theorem C9_success_true_unless_overridden (st : GeminiState)
    (oracle : Nat → Except Err ParsedDiagram) (d : String)
    (hok : ∀ i p, oracle i = .ok p → p.success = none) :
    (convertDiagramWithAI st oracle d).1.success = true := by
  rw [convertDiagramWithAI]
  split
  · rfl
  · rcases hrun : retryRun oracle retryableDiagram 0 RETRY_CONFIG.maxRetries with ⟨res, n⟩
    cases res with
    | none => rfl
    | some p =>
      obtain ⟨i, hi⟩ := retryRun_some_source oracle retryableDiagram p
        RETRY_CONFIG.maxRetries 0 (by rw [hrun])
      simp [mergeParsed, hok i p hi]

/-- Witness for C9 (amended): a reply without a `success` key yields
`success = true`. -/
theorem C9_success_witness :
    (convertDiagramWithAI ⟨true, true⟩
      (fun _ => .ok { title := "Flow" }) "┌─┐").1.success = true := by
  exact C9_success_true_unless_overridden ⟨true, true⟩ _ "┌─┐"
    (fun i p h => by
      cases h
      rfl)

/- ---- C2 ---- -/

theorem le_foldl_max_init (l : List Nat) (b : Nat) : b ≤ l.foldl max b := by
  induction l generalizing b with
  | nil => exact Nat.le_refl b
  | cons x xs ih => exact le_trans (Nat.le_max_left b x) (ih (max b x))

theorem le_foldl_max_of_mem (l : List Nat) (a b : Nat) (h : a ∈ l) :
    a ≤ l.foldl max b := by
  induction l generalizing b with
  | nil => cases h
  | cons x xs ih =>
    rcases List.mem_cons.mp h with rfl | h'
    · exact le_trans (Nat.le_max_right b a) (le_foldl_max_init xs (max b a))
    · exact ih (max b x) h'

/-- Counterexample to C2 as stated: the AI-element table path does not pad.
`createAITable ["a","b"] [["x"]]` emits a header row with 2 cells and a
data row with 1 cell, so not every output row reaches the maximum observed
cell count. -/
theorem C2_counterexample :
    ¬ (∀ row ∈ (createAITable ["a", "b"] [["x"]]).rows,
        row.children.length =
          (((createAITable ["a", "b"] [["x"]]).rows.map
            (fun r => r.children.length)).foldl max 0)) := by
  decide

/-- C2 (amended): only the local token path pads.  `createTable` gives
every rendered row exactly the maximum cell count observed across the
scanned rows, padding short rows with empty cells; `createAITable` keeps
each row's own cell count (the header row has `headers.length` cells, each
data row the length of its entry), with no padding. -/
theorem C2_table_padding :
    (∀ (tokens : List Token), ∀ row ∈ (createTable tokens).tableRows,
      row.children.length = tableColumnCount tokens) ∧
    (∀ (headers : List String) (rows : List (List String)),
      (createAITable headers rows).rows.map (fun r => r.children.length) =
        (if headers.length > 0 then [headers.length] else []) ++
          rows.map List.length) := by
  constructor
  · intro tokens row hrow
    rw [createTable] at hrow
    split at hrow
    · simp [DocxElement.tableRows] at hrow
    · simp only [DocxElement.tableRows, List.mem_map] at hrow
      obtain ⟨r0, hr0, rfl⟩ := hrow
      simp only [List.length_append, List.length_map, List.length_replicate]
      have hle : r0.cells.length ≤ tableColumnCount tokens :=
        le_foldl_max_of_mem _ _ 0 (List.mem_map_of_mem (fun r => r.cells.length) hr0)
      omega
  · intro headers rows
    rw [createAITable]
    split
    · simp
    · simp

/-- Witness for C2 (amended): on the concrete two-row token span whose
second row is one cell short, the padded second row reaches the table's
maximum cell count. -/
theorem C2_table_padding_witness :
    ((createTable tableWitnessTokens).tableRows.getD 1 { children := [] }).children.length =
      tableColumnCount tableWitnessTokens := by
  exact C2_table_padding.1 tableWitnessTokens _ (by decide)

/- ---- C10 ---- -/

theorem processAIParsedElements_eq_bind (parsed : ParsedDoc) :
    processAIParsedElements parsed = parsed.elements.flatMap processAIElement := by
  rw [processAIParsedElements]
  suffices h : ∀ (es : List AIElement) (acc : List DocxElement),
      es.foldl (fun elements e => elements ++ processAIElement e) acc =
        acc ++ es.flatMap processAIElement by
    simpa using h parsed.elements []
  intro es
  induction es with
  | nil => simp
  | cons x xs ih =>
    intro acc
    simp [ih, List.flatMap_cons]

/-- C10: an element whose `type` is none of the eight known tags reaches
the default branch of `processAIParsedElements`: in place, it contributes a
single plain unstyled paragraph (one run carrying only the text, no font,
size, color or emphasis options, and the default 160-twip spacing) when its
`text` field is a nonempty string, and nothing at all otherwise; the
surrounding elements are processed unchanged, so an unknown type never
fails the conversion (the walk is total). -/
theorem C10_unknown_element (title etype text : String)
    (pre post : List AIElement) :
    processAIParsedElements
        { title := title, elements := pre ++ AIElement.unknown etype text :: post } =
      processAIParsedElements { title := title, elements := pre } ++
      (if text ≠ "" then
        [DocxElement.para { spacingAfter := some 160, children := [{ text := text }] }]
      else []) ++
      processAIParsedElements { title := title, elements := post } := by
  simp only [processAIParsedElements_eq_bind]
  simp only [List.flatMap_append, List.flatMap_cons]
  simp [processAIElement]

/- ---- C1 ---- -/

theorem processTokens_calls_unavailable (st : GeminiState)
    (diagOracle : String → Nat → Except Err ParsedDiagram)
    (hav : isGeminiAvailable st = false) :
    ∀ tokens, (processTokens st diagOracle tokens).2 = 0 := by
  have hcond : (!st.modelInit || !st.useGemini) = true := by
    cases hm : st.modelInit <;> cases hu : st.useGemini <;> simp_all [isGeminiAvailable]
  intro tokens
  induction tokens using processTokens.induct st diagOracle
  all_goals rw [processTokens.eq_def]
  all_goals simp_all [createDiagramBlock, convertDiagramWithAI]
  all_goals assumption

/-- Counterexample to C1 as stated: with the Gemini client initialized and
enabled, converting a markdown document whose tokenization contains one
diagram code fence with `useAI = false` still reaches the diagram-analysis
backend call — `convertDiagramWithAI` is invoked from the local token walk
and performs one `generateContent` attempt (the simulated error being
non-retryable), so the AI backend is not avoided. -/
theorem C1_counterexample :
    (convertToDocx ⟨true, true⟩
      (fun _ => .error { status := none, message := "parse down" })
      (fun _ _ => .error { status := none, message := "bad request" })
      (fun _ => [Token.make "fence" "" "┌─┐\n│x│\n└─┘" "" []])
      "# doc with a diagram" false).2.diagramCalls ≠ 0 := by
  simp [convertToDocx, processTokens, Token.ttype, Token.content, createDiagramBlock,
    convertDiagramWithAI, retryRun, retryableDiagram, includes, isAsciiDiagram,
    isGeminiAvailable, RETRY_CONFIG]
  decide

/-- C1 (amended): with `useAI = false` the document-parsing backend call is
never invoked (its counter is 0 for every client state, oracle, tokenizer
and input) and the conversion runs on the local token parser; the
diagram-analysis backend call, however, is still reachable through diagram
blocks whenever the Gemini client is initialized and enabled — the
conversion is backend-free (local parser plus fallback diagram analyzer)
exactly when the client is unavailable or disabled. -/
theorem C1_no_ai_parse_when_disabled :
    (∀ (st : GeminiState) (parseOracle : Nat → Except Err ParsedDoc)
       (diagOracle : String → Nat → Except Err ParsedDiagram)
       (tokenizer : String → List Token) (markdown : String),
      (convertToDocx st parseOracle diagOracle tokenizer markdown false).2.parseCalls = 0) ∧
    (∀ (st : GeminiState) (parseOracle : Nat → Except Err ParsedDoc)
       (diagOracle : String → Nat → Except Err ParsedDiagram)
       (tokenizer : String → List Token) (markdown : String),
      isGeminiAvailable st = false →
      (convertToDocx st parseOracle diagOracle tokenizer markdown false).2 =
        { parseCalls := 0, diagramCalls := 0 }) := by
  constructor
  · intro st parseOracle diagOracle tokenizer markdown
    simp [convertToDocx]
  · intro st parseOracle diagOracle tokenizer markdown hav
    simp [convertToDocx,
      processTokens_calls_unavailable st diagOracle hav (tokenizer markdown)]

/-- Witness for C1 (amended): with the client uninitialized, the
counterexample document converts with zero backend calls of either kind. -/
theorem C1_no_ai_parse_witness :
    (convertToDocx ⟨false, false⟩
      (fun _ => .error { status := none, message := "parse down" })
      (fun _ _ => .error { status := none, message := "bad request" })
      (fun _ => [Token.make "fence" "" "┌─┐\n│x│\n└─┘" "" []])
      "# doc with a diagram" false).2 = { parseCalls := 0, diagramCalls := 0 } := by
  exact C1_no_ai_parse_when_disabled.2 ⟨false, false⟩ _ _ _ "# doc with a diagram"
    (by decide)

/- ---- helper lemmas: JS trim ---- -/

theorem trimLeftChars_head (l : List Char) (c : Char)
    (h : (trimLeftChars l).head? = some c) : c.isWhitespace = false := by
  induction l with
  | nil => simp [trimLeftChars] at h
  | cons x xs ih =>
    by_cases hx : x.isWhitespace
    · rw [trimLeftChars, List.dropWhile_cons_of_pos hx] at h
      exact ih h
    · rw [trimLeftChars,
        List.dropWhile_cons_of_neg (by simpa using hx)] at h
      cases h
      simpa using hx

theorem trimLeftChars_eq_self (l : List Char)
    (h : ∀ c, l.head? = some c → c.isWhitespace = false) :
    trimLeftChars l = l := by
  cases l with
  | nil => rfl
  | cons x xs =>
    exact List.dropWhile_cons_of_neg (by simp [h x rfl])

theorem trimLeftChars_suffix_decomp (l : List Char) :
    l.takeWhile Char.isWhitespace ++ trimLeftChars l = l :=
  List.takeWhile_append_dropWhile _ _

theorem trimRight_eq_self (l : List Char)
    (h : ∀ c, l.reverse.head? = some c → c.isWhitespace = false) :
    (trimLeftChars l.reverse).reverse = l := by
  rw [trimLeftChars_eq_self l.reverse h, List.reverse_reverse]

theorem trimChars_eq_self (l : List Char)
    (hl : ∀ c, l.head? = some c → c.isWhitespace = false)
    (hr : ∀ c, l.reverse.head? = some c → c.isWhitespace = false) :
    trimChars l = l := by
  rw [trimChars, trimRight_eq_self l hr, trimLeftChars_eq_self l hl]

theorem trimChars_append_newline (l : List Char) :
    trimChars (l ++ ['\n']) = trimChars l := by
  rw [trimChars, trimChars]
  have h1 : (l ++ ['\n']).reverse = '\n' :: l.reverse := by simp
  have h2 : trimLeftChars ('\n' :: l.reverse) = trimLeftChars l.reverse :=
    List.dropWhile_cons_of_pos (by decide)
  rw [h1, h2]

theorem trimChars_head (l : List Char) (c : Char)
    (h : (trimChars l).head? = some c) : c.isWhitespace = false :=
  trimLeftChars_head _ c h

theorem trimChars_reverse_head (l : List Char) (c : Char)
    (h : (trimChars l).reverse.head? = some c) : c.isWhitespace = false := by
  set R := (trimLeftChars l.reverse).reverse with hR
  have hdecomp : R.takeWhile Char.isWhitespace ++ trimChars l = R :=
    trimLeftChars_suffix_decomp R
  have hRrev : R.reverse = trimLeftChars l.reverse := by
    rw [hR, List.reverse_reverse]
  have hsplit : trimLeftChars l.reverse =
      (trimChars l).reverse ++ (R.takeWhile Char.isWhitespace).reverse := by
    have h3 := congrArg List.reverse hdecomp
    rw [List.reverse_append] at h3
    rw [hRrev] at h3
    exact h3.symm
  cases hm : (trimChars l).reverse with
  | nil => rw [hm] at h; cases h
  | cons y ys =>
    rw [hm] at h
    cases h
    apply trimLeftChars_head l.reverse
    rw [hsplit, hm]
    rfl

theorem trimChars_idem (l : List Char) : trimChars (trimChars l) = trimChars l :=
  trimChars_eq_self _ (trimChars_head l) (trimChars_reverse_head l)

theorem trimChars_infix_self (l : List Char) : trimChars l <:+: l := by
  have h1 : trimChars l <:+ (trimLeftChars l.reverse).reverse := by
    rw [trimChars]
    exact List.dropWhile_suffix _
  have h2 : (trimLeftChars l.reverse).reverse <+: l := by
    refine ⟨(l.reverse.takeWhile Char.isWhitespace).reverse, ?_⟩
    have := congrArg List.reverse (trimLeftChars_suffix_decomp l.reverse)
    simpa using this
  exact h1.isInfix.trans h2.isInfix

/- ---- helper lemmas: fence stripping ---- -/

theorem stripAll_nil (pat : List Char) : stripAll pat [] = [] := by
  rw [stripAll]

theorem stripAll_cons_pos {pat : List Char} {c : Char} {r : List Char}
    (h1 : pat.isPrefixOf (c :: r) = true) (h2 : pat ≠ []) :
    stripAll pat (c :: r) = stripAll pat (dropNl ((c :: r).drop pat.length)) := by
  rw [stripAll]
  rw [if_pos ⟨h1, h2⟩]

theorem stripAll_cons_neg {pat : List Char} {c : Char} {r : List Char}
    (h : ¬ (pat.isPrefixOf (c :: r) = true ∧ pat ≠ [])) :
    stripAll pat (c :: r) = c :: stripAll pat r := by
  rw [stripAll]
  rw [if_neg h]

theorem stripAll_eq_self (pat : List Char) (hp : fence3 <+: pat) :
    ∀ l, ¬ fence3 <:+: l → stripAll pat l = l := by
  intro l
  induction l with
  | nil => intro _; exact stripAll_nil pat
  | cons c r ih =>
    intro h
    have hnc : ¬ (pat.isPrefixOf (c :: r) = true ∧ pat ≠ []) := by
      rintro ⟨h1, _⟩
      exact h ((hp.trans (List.isPrefixOf_iff_prefix.mp h1)).isInfix)
    rw [stripAll_cons_neg hnc, ih (fun hi => h (List.infix_cons hi))]

theorem stripAll_fenceJson_tail (body : List Char) (h : ¬ fence3 <:+: body) :
    stripAll fenceJson (body ++ ('\n' :: fence3)) = body ++ ('\n' :: fence3) := by
  induction body with
  | nil =>
    show stripAll fenceJson ('\n' :: '`' :: '`' :: '`' :: []) =
      '\n' :: '`' :: '`' :: '`' :: []
    rw [stripAll_cons_neg (by decide), stripAll_cons_neg (by decide),
      stripAll_cons_neg (by decide), stripAll_cons_neg (by decide), stripAll_nil]
  | cons c body' ih =>
    have hnc : ¬ (fenceJson.isPrefixOf (c :: (body' ++ ('\n' :: fence3))) = true ∧
        fenceJson ≠ []) := by
      rintro ⟨h1, -⟩
      have hpre := List.isPrefixOf_iff_prefix.mp h1
      rw [show fenceJson = '`' :: '`' :: '`' :: 'j' :: 's' :: 'o' :: 'n' :: [] from rfl,
        List.cons_prefix_cons] at hpre
      obtain ⟨hc, hpre⟩ := hpre
      match body', hpre with
      | [], hpre =>
        rw [List.nil_append, List.cons_prefix_cons] at hpre
        exact absurd hpre.1 (by decide)
      | [d1], hpre =>
        rw [List.cons_append, List.nil_append, List.cons_prefix_cons,
          List.cons_prefix_cons] at hpre
        exact absurd hpre.2.1 (by decide)
      | d1 :: d2 :: b2, hpre =>
        rw [List.cons_append, List.cons_append, List.cons_prefix_cons,
          List.cons_prefix_cons] at hpre
        exact h ⟨[], b2, by
          simp [show fence3 = ['`', '`', '`'] from rfl, ← hc, ← hpre.1, ← hpre.2.1]⟩
    have hr : ¬ fence3 <:+: body' := fun hi => h (List.infix_cons hi)
    rw [List.cons_append, stripAll_cons_neg hnc, ih hr]

theorem stripAll_fence3_tail (body : List Char) (h : ¬ fence3 <:+: body) :
    stripAll fence3 (body ++ ('\n' :: fence3)) = body ++ ['\n'] := by
  induction body with
  | nil =>
    show stripAll fence3 ('\n' :: '`' :: '`' :: '`' :: []) = ['\n']
    rw [stripAll_cons_neg (by decide), stripAll_cons_pos (by decide) (by decide)]
    rw [show dropNl (List.drop fence3.length ('`' :: '`' :: '`' :: [])) = []
      from rfl, stripAll_nil]
  | cons c body' ih =>
    have hnc : ¬ (fence3.isPrefixOf (c :: (body' ++ ('\n' :: fence3))) = true ∧
        fence3 ≠ []) := by
      rintro ⟨h1, -⟩
      have hpre := List.isPrefixOf_iff_prefix.mp h1
      rw [show (fence3 : List Char) = '`' :: '`' :: '`' :: [] from rfl,
        List.cons_prefix_cons] at hpre
      obtain ⟨hc, hpre⟩ := hpre
      match body', hpre with
      | [], hpre =>
        rw [List.nil_append, List.cons_prefix_cons] at hpre
        exact absurd hpre.1 (by decide)
      | [d1], hpre =>
        rw [List.cons_append, List.nil_append, List.cons_prefix_cons,
          List.cons_prefix_cons] at hpre
        exact absurd hpre.2.1 (by decide)
      | d1 :: d2 :: b2, hpre =>
        rw [List.cons_append, List.cons_append, List.cons_prefix_cons,
          List.cons_prefix_cons] at hpre
        exact h ⟨[], b2, by
          simp [show fence3 = ['`', '`', '`'] from rfl, ← hc, ← hpre.1, ← hpre.2.1]⟩
    have hr : ¬ fence3 <:+: body' := fun hi => h (List.infix_cons hi)
    rw [List.cons_append, stripAll_cons_neg hnc, ih hr]
    simp

/- ---- C8 ---- -/

/-- C8: for every reply body that does not itself contain a code-fence
marker (` ``` `), the pre-decoding cleanup (trim, delete ```` ```json ````
with optional newline, delete `` ``` `` with optional newline, trim) maps
the fence-wrapped reply ```` ```json\n<body>\n``` ```` and the bare reply
to the same cleaned text — both to the trimmed body — so `JSON.parse`
receives identical input and decodes the identical structure. -/
theorem C8_fence_wrap_transparent (body : List Char) (h : ¬ fence3 <:+: body) :
    cleanAIResponse (wrapJsonFence body) = cleanAIResponse body := by
  have hwrap_cons : wrapJsonFence body =
      '`' :: ('`' :: '`' :: 'j' :: 's' :: 'o' :: 'n' :: ('\n' :: (body ++ '\n' :: fence3))) := by
    rw [wrapJsonFence]
    rfl
  -- the wrapped text is already trimmed: it starts and ends with a backtick
  have htrimw : trimChars (wrapJsonFence body) = wrapJsonFence body := by
    apply trimChars_eq_self
    · intro c hc
      rw [hwrap_cons] at hc
      cases hc
      decide
    · intro c hc
      have hsnoc : wrapJsonFence body =
          (fenceJson ++ ('\n' :: (body ++ ['\n', '`', '`']))) ++ ['`'] := by
        rw [wrapJsonFence]
        simp [fenceJson, fence3]
      rw [hsnoc] at hc
      simp at hc
      rw [← hc]
      decide
  -- the first replace deletes the leading ```json and its newline
  have hstep1 : stripAll fenceJson (wrapJsonFence body) = body ++ '\n' :: fence3 := by
    rw [hwrap_cons,
      stripAll_cons_pos
        (show fenceJson.isPrefixOf ('`' :: '`' :: '`' :: 'j' :: 's' :: 'o' :: 'n'
            :: ('\n' :: (body ++ '\n' :: fence3))) = true
          by simp [fenceJson, List.isPrefixOf]) (by decide)]
    rw [show List.drop fenceJson.length
        ('`' :: '`' :: '`' :: 'j' :: 's' :: 'o' :: 'n' :: '\n' :: (body ++ '\n' :: fence3))
      = '\n' :: (body ++ '\n' :: fence3) from rfl]
    rw [show dropNl ('\n' :: (body ++ '\n' :: fence3)) = body ++ '\n' :: fence3 from rfl]
    exact stripAll_fenceJson_tail body h
  calc cleanAIResponse (wrapJsonFence body)
      = trimChars (stripAll fence3 (stripAll fenceJson (wrapJsonFence body))) := by
        rw [cleanAIResponse, htrimw]
    _ = trimChars (body ++ ['\n']) := by rw [hstep1, stripAll_fence3_tail body h]
    _ = trimChars body := trimChars_append_newline body
    _ = cleanAIResponse body := by
        have hb : ¬ fence3 <:+: trimChars body :=
          fun hi => h (hi.trans (trimChars_infix_self body))
        rw [cleanAIResponse,
          stripAll_eq_self fenceJson (by decide) _ hb,
          stripAll_eq_self fence3 (by decide) _ hb,
          trimChars_idem]

/-- Witness for C8 at the fence-free body `[1, 2, 3]`. -/
theorem C8_fence_wrap_witness :
    ¬ fence3 <:+: "[1, 2, 3]".toList ∧
    cleanAIResponse (wrapJsonFence "[1, 2, 3]".toList) =
      cleanAIResponse "[1, 2, 3]".toList := by
  refine ⟨by decide, C8_fence_wrap_transparent "[1, 2, 3]".toList (by decide)⟩

/-- Witness for C5 on a concrete diagram: the surviving fragment
`"API Server"` is a component with empty description and length above 2. -/
theorem C5_fallback_witness :
    ({ name := "API Server", description := "" } : Component) ∈
      (fallbackDiagramConversion "┌──────────┐\n│ API Server │\n└──────────┘").components ∧
    ("" : String) = "" ∧ 2 < ("API Server" : String).length := by
  refine ⟨by decide, ?_⟩
  exact (C5_fallback_properties "┌──────────┐\n│ API Server │\n└──────────┘").2.2.2.2.1
    { name := "API Server", description := "" } (by decide)
